import Mathlib

/-!
# GreenBasket backend — verification of the webhook verifier & reconciler

Shallow embedding of `src/server.js`:

* `hmacHexList` / `hmacHexS` — HMAC-SHA-256 with lowercase hex output, as
  produced by node's `crypto.createHmac('sha256', secret).update(body).digest('hex')`.
* `jsonParse` — a JSON parser standing for `JSON.parse`.
* `handleRazorpayWebhook` — the `POST /razorpay-webhook` route handler.
* `verifyPayment` — the `POST /verify-payment` route handler.

The Document Store (Firestore) is modelled as a list of user records plus two
environment flags saying whether the query (`.get()`) or the mutation
(`.ref.update(...)`) fails; both failures are caught by the handler's
`try/catch`.  An unhandled JavaScript exception (missing webhook secret,
`JSON.parse` failure, member access on `undefined`/`null`) is modelled as a
`none` response: the async handler's promise rejects and no HTTP response is
produced.
-/

/-! ## Bytes and UTF-8 -/

/-- The 2^32 wrap applied after every 32-bit arithmetic step of SHA-256. -/
def w32 (n : Nat) : Nat := n % 4294967296

/-- UTF-8 encoding of one character, as node's `Buffer.from(s, 'utf8')` would
produce it. -/
def utf8Bytes (c : Char) : List Nat :=
  let n := c.toNat
  if n < 128 then [n]
  else if n < 2048 then
    [192 + n / 64, 128 + n % 64]
  else if n < 65536 then
    [224 + n / 4096, 128 + (n / 64) % 64, 128 + n % 64]
  else
    [240 + n / 262144, 128 + (n / 4096) % 64, 128 + (n / 64) % 64, 128 + n % 64]

/-- UTF-8 bytes of a string. -/
def strBytes (s : String) : List Nat := (s.data.map utf8Bytes).flatten

/-! ## SHA-256 -/

/-- The eight working words of the SHA-256 state. -/
structure Hash8 where
  a : Nat
  b : Nat
  c : Nat
  d : Nat
  e : Nat
  f : Nat
  g : Nat
  h : Nat

/-- SHA-256 initial hash value. -/
def sha256H0 : Hash8 :=
  ⟨0x6a09e667, 0xbb67ae85, 0x3c6ef372, 0xa54ff53a, 0x510e527f, 0x9b05688c, 0x1f83d9ab, 0x5be0cd19⟩

/-- SHA-256 round constants. -/
def sha256K : List Nat :=
  [0x428a2f98, 0x71374491, 0xb5c0fbcf, 0xe9b5dba5, 0x3956c25b, 0x59f111f1, 0x923f82a4,
   0xab1c5ed5, 0xd807aa98, 0x12835b01, 0x243185be, 0x550c7dc3, 0x72be5d74] ++
  [0x80deb1fe, 0x9bdc06a7, 0xc19bf174, 0xe49b69c1, 0xefbe4786, 0x0fc19dc6, 0x240ca1cc,
   0x2de92c6f, 0x4a7484aa, 0x5cb0a9dc, 0x76f988da, 0x983e5152, 0xa831c66d] ++
  [0xb00327c8, 0xbf597fc7, 0xc6e00bf3, 0xd5a79147, 0x06ca6351, 0x14292967, 0x27b70a85,
   0x2e1b2138, 0x4d2c6dfc, 0x53380d13, 0x650a7354, 0x766a0abb, 0x81c2c92e] ++
  [0x92722c85, 0xa2bfe8a1, 0xa81a664b, 0xc24b8b70, 0xc76c51a3, 0xd192e819, 0xd6990624,
   0xf40e3585, 0x106aa070, 0x19a4c116, 0x1e376c08, 0x2748774c, 0x34b0bcb5] ++
  [0x391c0cb3, 0x4ed8aa4a, 0x5b9cca4f, 0x682e6ff3, 0x748f82ee, 0x78a5636f, 0x84c87814,
   0x8cc70208, 0x90befffa, 0xa4506ceb, 0xbef9a3f7, 0xc67178f2]

/-- Right rotation of a 32-bit word. -/
def rotr (x k : Nat) : Nat := w32 ((x >>> k) ||| (x <<< (32 - k)))

/-- SHA-256 message-schedule function σ₀. -/
def smallSigma0 (x : Nat) : Nat := (rotr x 7) ^^^ (rotr x 18) ^^^ (x >>> 3)

/-- SHA-256 message-schedule function σ₁. -/
def smallSigma1 (x : Nat) : Nat := (rotr x 17) ^^^ (rotr x 19) ^^^ (x >>> 10)

/-- SHA-256 compression function Σ₀. -/
def bigSigma0 (x : Nat) : Nat := (rotr x 2) ^^^ (rotr x 13) ^^^ (rotr x 22)

/-- SHA-256 compression function Σ₁. -/
def bigSigma1 (x : Nat) : Nat := (rotr x 6) ^^^ (rotr x 11) ^^^ (rotr x 25)

/-- SHA-256 choose function. -/
def chV (x y z : Nat) : Nat := (x &&& y) ^^^ ((x ^^^ 0xffffffff) &&& z)

/-- SHA-256 majority function. -/
def majV (x y z : Nat) : Nat := (x &&& y) ^^^ (x &&& z) ^^^ (y &&& z)

/-- Big-endian 64-bit length field appended by SHA-256 padding. -/
def lenBytes (l : Nat) : List Nat :=
  [(l >>> 56) % 256, (l >>> 48) % 256, (l >>> 40) % 256, (l >>> 32) % 256,
   (l >>> 24) % 256, (l >>> 16) % 256, (l >>> 8) % 256, l % 256]

/-- SHA-256 padding: append `0x80`, zero bytes to 56 mod 64, then the bit length. -/
def padMessage (msg : List Nat) : List Nat :=
  let len := msg.length
  msg ++ (128 :: List.replicate ((119 - len % 64) % 64) 0) ++ lenBytes (len * 8)

/-- Split a byte list into 64-byte blocks; the fuel is an upper bound on the
number of steps (the list length suffices). -/
def toBlocks : Nat → List Nat → List (List Nat)
  | 0, _ => []
  | _ + 1, [] => []
  | fuel + 1, l => l.take 64 :: toBlocks fuel (l.drop 64)

/-- Big-endian packing of bytes into 32-bit words. -/
def bytesToWords : List Nat → List Nat
  | b0 :: b1 :: b2 :: b3 :: rest =>
      ((b0 <<< 24) + (b1 <<< 16) + (b2 <<< 8) + b3) :: bytesToWords rest
  | _ => []

/-- Extend the 16-word message schedule by `k` further words. -/
def extendW : List Nat → Nat → List Nat
  | ws, 0 => ws
  | ws, k + 1 =>
      let n := ws.length
      let w := w32 (smallSigma1 (ws.getD (n - 2) 0) + ws.getD (n - 7) 0 +
                    smallSigma0 (ws.getD (n - 15) 0) + ws.getD (n - 16) 0)
      extendW (ws ++ [w]) k

/-- One SHA-256 round, consuming a (schedule word, round constant) pair. -/
def roundStep (st : Hash8) (wk : Nat × Nat) : Hash8 :=
  let t1 := w32 (st.h + bigSigma1 st.e + chV st.e st.f st.g + wk.2 + wk.1)
  let t2 := w32 (bigSigma0 st.a + majV st.a st.b st.c)
  ⟨w32 (t1 + t2), st.a, st.b, st.c, w32 (st.d + t1), st.e, st.f, st.g⟩

/-- SHA-256 compression of a single 64-byte block. -/
def sha256Compress (st : Hash8) (block : List Nat) : Hash8 :=
  let ws := extendW (bytesToWords block) 48
  let t := (ws.zip sha256K).foldl roundStep st
  ⟨w32 (st.a + t.a), w32 (st.b + t.b), w32 (st.c + t.c), w32 (st.d + t.d),
   w32 (st.e + t.e), w32 (st.f + t.f), w32 (st.g + t.g), w32 (st.h + t.h)⟩

/-- SHA-256 of a byte list, as the final eight-word state. -/
def sha256Hash (msg : List Nat) : Hash8 :=
  (toBlocks (padMessage msg).length (padMessage msg)).foldl sha256Compress sha256H0

/-- The sixteen lowercase hex digits. -/
def hexCharList : List Char :=
  ['0', '1', '2', '3', '4', '5', '6', '7'] ++ ['8', '9', 'a', 'b', 'c', 'd', 'e', 'f']

/-- Hex digit of `n % 16`. -/
def hexDigit (n : Nat) : Char := hexCharList.getD (n % 16) '0'

/-- Eight lowercase hex characters of a 32-bit word, most significant first. -/
def toHex8 (n : Nat) : List Char :=
  [hexDigit (n >>> 28), hexDigit (n >>> 24), hexDigit (n >>> 20), hexDigit (n >>> 16),
   hexDigit (n >>> 12), hexDigit (n >>> 8), hexDigit (n >>> 4), hexDigit n]

/-- Lowercase hex rendering of the eight-word state (node's `.digest('hex')`). -/
def hash8Hex (st : Hash8) : List Char :=
  toHex8 st.a ++ toHex8 st.b ++ toHex8 st.c ++ toHex8 st.d ++
  toHex8 st.e ++ toHex8 st.f ++ toHex8 st.g ++ toHex8 st.h

/-- Big-endian bytes of a 32-bit word. -/
def wordBytesBE (n : Nat) : List Nat :=
  [(n >>> 24) % 256, (n >>> 16) % 256, (n >>> 8) % 256, n % 256]

/-- SHA-256 digest as 32 bytes. -/
def sha256Bytes (msg : List Nat) : List Nat :=
  let st := sha256Hash msg
  wordBytesBE st.a ++ wordBytesBE st.b ++ wordBytesBE st.c ++ wordBytesBE st.d ++
  wordBytesBE st.e ++ wordBytesBE st.f ++ wordBytesBE st.g ++ wordBytesBE st.h

/-- SHA-256 digest as lowercase hex characters. -/
def sha256HexList (msg : List Nat) : List Char := hash8Hex (sha256Hash msg)

/-- HMAC key preparation: keys longer than the 64-byte block are hashed first,
then the key is zero-padded to 64 bytes (RFC 2104, as node implements it). -/
def hmacKeyBlock (key : List Nat) : List Nat :=
  let k0 := if 64 < key.length then sha256Bytes key else key
  k0 ++ List.replicate (64 - k0.length) 0

/-- HMAC-SHA-256 digest, lowercase hex, over byte lists. -/
def hmacHexList (key msg : List Nat) : List Char :=
  let k := hmacKeyBlock key
  sha256HexList ((k.map (fun b => b ^^^ 92)) ++
    sha256Bytes ((k.map (fun b => b ^^^ 54)) ++ msg))

/-- HMAC-SHA-256 hex digest as a string, over byte lists. -/
def hmacHexB (key msg : List Nat) : String := ⟨hmacHexList key msg⟩

/-- `crypto.createHmac('sha256', secret).update(body).digest('hex')` for string
inputs (the raw request body is the UTF-8 byte sequence of `body`). -/
def hmacHexS (secret body : String) : String :=
  ⟨hmacHexList (strBytes secret) (strBytes body)⟩

/-! ## JSON values and `JSON.parse` -/

/-- A JSON value.  Numbers keep their source text: the handler never computes
with numeric payload fields, it only stores and compares them. -/
inductive Json where
  | null
  | bool (b : Bool)
  | num (raw : String)
  | str (s : String)
  | arr (items : List Json)
  | obj (members : List (String × Json))

/-- JSON whitespace. -/
def isJsonWs (c : Char) : Bool := c = ' ' || c = '\t' || c = '\n' || c = '\r'

/-- Drop leading JSON whitespace. -/
def skipWs : List Char → List Char
  | c :: rest => if isJsonWs c then skipWs rest else c :: rest
  | [] => []

/-- Value of one hex digit, if any. -/
def hexVal (c : Char) : Option Nat :=
  if '0' ≤ c ∧ c ≤ '9' then some (c.toNat - 48)
  else if 'a' ≤ c ∧ c ≤ 'f' then some (c.toNat - 87)
  else if 'A' ≤ c ∧ c ≤ 'F' then some (c.toNat - 55)
  else none

/-- Body of a JSON string literal, after the opening quote; returns the decoded
string and the input after the closing quote.  Unknown escapes and raw control
characters are rejected, as `JSON.parse` rejects them. -/
def parseStringLit : List Char → List Char → Option (String × List Char)
  | acc, '"' :: rest => some (⟨acc.reverse⟩, rest)
  | acc, '\\' :: 'u' :: h1 :: h2 :: h3 :: h4 :: rest =>
      match hexVal h1, hexVal h2, hexVal h3, hexVal h4 with
      | some a, some b, some c, some d =>
          parseStringLit (Char.ofNat (((a * 16 + b) * 16 + c) * 16 + d) :: acc) rest
      | _, _, _, _ => none
  | acc, '\\' :: e :: rest =>
      match e with
      | '"' => parseStringLit ('"' :: acc) rest
      | '\\' => parseStringLit ('\\' :: acc) rest
      | '/' => parseStringLit ('/' :: acc) rest
      | 'b' => parseStringLit ('\x08' :: acc) rest
      | 'f' => parseStringLit ('\x0c' :: acc) rest
      | 'n' => parseStringLit ('\n' :: acc) rest
      | 'r' => parseStringLit ('\r' :: acc) rest
      | 't' => parseStringLit ('\t' :: acc) rest
      | _ => none
  | acc, c :: rest => if c.toNat < 32 then none else parseStringLit (c :: acc) rest
  | _, [] => none

/-- Longest digit prefix. -/
def takeDigits : List Char → List Char × List Char
  | c :: rest =>
      if '0' ≤ c ∧ c ≤ '9' then
        let (d, r) := takeDigits rest
        (c :: d, r)
      else ([], c :: rest)
  | [] => ([], [])

/-- Fraction part of a JSON number, possibly empty. -/
def parseFracPart : List Char → Option (List Char × List Char)
  | '.' :: r =>
      match takeDigits r with
      | ([], _) => none
      | (d, r2) => some ('.' :: d, r2)
  | r => some ([], r)

/-- Exponent part of a JSON number, possibly empty. -/
def parseExpPart : List Char → Option (List Char × List Char)
  | e :: r =>
      if e = 'e' ∨ e = 'E' then
        let (sgn, r1) :=
          match r with
          | '+' :: rr => (['+'], rr)
          | '-' :: rr => (['-'], rr)
          | _ => ([], r)
        match takeDigits r1 with
        | ([], _) => none
        | (d, r2) => some (e :: (sgn ++ d), r2)
      else some ([], e :: r)
  | [] => some ([], [])

/-- A JSON number literal (sign, integer, fraction, exponent), kept as text. -/
def parseNumber (cs : List Char) : Option (String × List Char) :=
  let (neg, cs1) :=
    match cs with
    | '-' :: r => (['-'], r)
    | _ => ([], cs)
  match cs1 with
  | '0' :: r =>
      match parseFracPart r with
      | none => none
      | some (f, r2) =>
        match parseExpPart r2 with
        | none => none
        | some (x, r3) => some (⟨neg ++ '0' :: (f ++ x)⟩, r3)
  | c :: r =>
      if '1' ≤ c ∧ c ≤ '9' then
        match takeDigits r with
        | (d, r1) =>
          match parseFracPart r1 with
          | none => none
          | some (f, r2) =>
            match parseExpPart r2 with
            | none => none
            | some (x, r3) => some (⟨neg ++ c :: (d ++ f ++ x)⟩, r3)
      else none
  | [] => none

/-- Parser mode: a value, the items of an array, or the members of an object. -/
inductive PMode where
  | val
  | arrItems (acc : List Json)
  | objItems (acc : List (String × Json))

/-- Recursive-descent JSON parser; the fuel bounds the recursion depth and
`2 * length + 4` is always enough. -/
def parseStep : Nat → PMode → List Char → Option (Json × List Char)
  | 0, _, _ => none
  | fuel + 1, PMode.val, cs =>
    match skipWs cs with
    | 'n' :: 'u' :: 'l' :: 'l' :: rest => some (Json.null, rest)
    | 't' :: 'r' :: 'u' :: 'e' :: rest => some (Json.bool true, rest)
    | 'f' :: 'a' :: 'l' :: 's' :: 'e' :: rest => some (Json.bool false, rest)
    | '"' :: rest =>
        match parseStringLit [] rest with
        | some (s, r) => some (Json.str s, r)
        | none => none
    | '\x7b' :: rest =>
        match skipWs rest with
        | '\x7d' :: r2 => some (Json.obj [], r2)
        | r2 => parseStep fuel (PMode.objItems []) r2
    | '[' :: rest =>
        match skipWs rest with
        | ']' :: r2 => some (Json.arr [], r2)
        | r2 => parseStep fuel (PMode.arrItems []) r2
    | rest =>
        match parseNumber rest with
        | some (raw, r) => some (Json.num raw, r)
        | none => none
  | fuel + 1, PMode.arrItems acc, cs =>
    match parseStep fuel PMode.val cs with
    | none => none
    | some (v, rest) =>
        match skipWs rest with
        | ',' :: r2 => parseStep fuel (PMode.arrItems (acc ++ [v])) r2
        | ']' :: r2 => some (Json.arr (acc ++ [v]), r2)
        | _ => none
  | fuel + 1, PMode.objItems acc, cs =>
    match skipWs cs with
    | '"' :: r1 =>
        match parseStringLit [] r1 with
        | none => none
        | some (k, r2) =>
            match skipWs r2 with
            | ':' :: r3 =>
                match parseStep fuel PMode.val r3 with
                | none => none
                | some (v, r4) =>
                    match skipWs r4 with
                    | ',' :: r5 => parseStep fuel (PMode.objItems (acc ++ [(k, v)])) r5
                    | '\x7d' :: r5 => some (Json.obj (acc ++ [(k, v)]), r5)
                    | _ => none
            | _ => none
    | _ => none

/-- `JSON.parse`: parse one value and require only whitespace after it;
`none` models the thrown `SyntaxError`. -/
def jsonParse (s : String) : Option Json :=
  match parseStep (2 * s.data.length + 4) PMode.val s.data with
  | some (v, rest) => if skipWs rest = [] then some v else none
  | none => none

/-! ## JavaScript member access on parsed values -/

/-- Object member lookup; with duplicate keys `JSON.parse` keeps the last one. -/
def objGet (kvs : List (String × Json)) (k : String) : Option Json :=
  match kvs.reverse.find? (fun p => p.1 == k) with
  | some p => some p.2
  | none => none

/-- JavaScript member access `v.key` on a parsed value (`none` = `undefined`):
accessing a member of `undefined` or `null` throws a `TypeError`
(`Except.error`); on any other non-object it yields `undefined`. -/
def jsMember (v : Option Json) (key : String) : Except Unit (Option Json) :=
  match v with
  | none => Except.error ()
  | some Json.null => Except.error ()
  | some (Json.obj kvs) => Except.ok (objGet kvs key)
  | some _ => Except.ok none

/-- JavaScript strict equality `v === s` between a possibly-undefined parsed
value and a string literal. -/
def jsEqStr (v : Option Json) (s : String) : Bool :=
  match v with
  | some (Json.str x) => x == s
  | _ => false

/-- The chain `event.payload.account.entity.<field>` from lines 221–223 of
`server.js`; any access on `undefined`/`null` along the chain throws. -/
def entityField (ev : Json) (field : String) : Except Unit (Option Json) := do
  let p ← jsMember (some ev) ("payload")
  let a ← jsMember p ("account")
  let e ← jsMember a ("entity")
  jsMember e field

/-! ## Document Store data model -/

/-- A record of the `users` collection, with the fields the webhook reconciler
touches.  The two mirrored Razorpay status fields hold whatever JSON value the
event carried (`none` = field absent from the document). -/
structure UserRecord where
  docId : String
  linkedAccountId : Option String
  kycCompleted : Bool
  razorpayAccountStatus : Option Json
  razorpayKycStatus : Option Json

/-- The Document Store as the webhook handler sees it: the `users` collection
plus whether the `.get()` query or the `.ref.update(...)` call fails (both
failure modes land in the handler's `catch`). -/
structure StoreEnv where
  users : List UserRecord
  queryFails : Bool
  updateFails : Bool

/-- An inbound webhook request: raw body and the
`x-razorpay-signature` header (`none` = header absent). -/
structure WebhookRequest where
  body : String
  signature : Option String

/-- The partial update object built at lines 234–244 of `server.js`:
`razorpayAccountStatus` and `razorpayKycStatus` always present (possibly the
JavaScript value `undefined`, i.e. `none`), `kycCompleted` only for the three
recognised KYC statuses. -/
structure UpdateData where
  razorpayAccountStatus : Option Json
  razorpayKycStatus : Option Json
  kycCompleted : Option Bool

/-- `updateData` as the handler builds it from the event's `status` and
`kyc_status` values: `kycCompleted` is set to `true` for `"verified"`, to
`false` for `"pending"`/`"rejected"`, and left out of the update otherwise. -/
def updateData (accountStatus kycStatus : Option Json) : UpdateData :=
  { razorpayAccountStatus := accountStatus
    razorpayKycStatus := kycStatus
    kycCompleted :=
      if jsEqStr kycStatus ("verified") then some true
      else if jsEqStr kycStatus ("pending") || jsEqStr kycStatus ("rejected") then some false
      else none }

/-- Field semantics of a Firestore partial update: a field named in the update
is overwritten, a field not named keeps its prior value. -/
def keepOr (new old : Option Json) : Option Json :=
  match new with
  | some v => some v
  | none => old

/-- Apply an `UpdateData` to a stored record (`userDoc.ref.update(updateData)`). -/
def applyUpdate (r : UserRecord) (u : UpdateData) : UserRecord :=
  { docId := r.docId
    linkedAccountId := r.linkedAccountId
    kycCompleted := u.kycCompleted.getD r.kycCompleted
    razorpayAccountStatus := keepOr u.razorpayAccountStatus r.razorpayAccountStatus
    razorpayKycStatus := keepOr u.razorpayKycStatus r.razorpayKycStatus }

/-- The filtered query `where('linkedAccountId', '==', v)`: a stored string
field matches exactly a string event value. -/
def matchesAccount (v : Json) (r : UserRecord) : Bool :=
  match v with
  | Json.str s => r.linkedAccountId == some s
  | _ => false

/-- The store operations the handler can attempt, recorded as a trace. -/
inductive WAction where
  | parseBody
  | storeQuery (field : String) (value : Json)
  | storeUpdate (docId : String) (upd : UpdateData)

/-- Whether a trace entry is a Document Store read or write. -/
def WAction.isStoreOp : WAction → Bool
  | WAction.parseBody => false
  | _ => true

/-- Result of one webhook delivery: the HTTP response (`none` = the async
handler threw and no response was produced), the resulting `users` collection,
and the trace of attempted operations. -/
structure WebhookResult where
  response : Option (Nat × String)
  users : List UserRecord
  trace : List WAction

/-! ## The webhook handler -/

/-- The event type tags recognised at line 220 of `server.js`. -/
def recWorthy (t : Option Json) : Bool :=
  jsEqStr t ("account.activated") || jsEqStr t ("account.updated")

/-- The `try` block at lines 227–254: query by `linkedAccountId`, update the
first matching document.  `where(..., undefined)` throws before the read;
an update object containing `undefined` values throws before the write; a
failing query or update rejects; every one of these is caught, logged, and
falls through to the success acknowledgement. -/
def runReconcile (env : StoreEnv) (vId vStatus vKyc : Option Json) :
    List UserRecord × List WAction :=
  match vId with
  | none => (env.users, [])
  | some idv =>
    if env.queryFails then (env.users, [WAction.storeQuery ("linkedAccountId") idv])
    else
      match env.users.filter (matchesAccount idv) with
      | [] => (env.users, [WAction.storeQuery ("linkedAccountId") idv])
      | r :: _ =>
        let upd := updateData vStatus vKyc
        if vStatus.isNone || vKyc.isNone then
          (env.users, [WAction.storeQuery ("linkedAccountId") idv])
        else if env.updateFails then
          (env.users,
           [WAction.storeQuery ("linkedAccountId") idv, WAction.storeUpdate r.docId upd])
        else
          (env.users.map (fun u => if u.docId = r.docId then applyUpdate u upd else u),
           [WAction.storeQuery ("linkedAccountId") idv, WAction.storeUpdate r.docId upd])

/-- `POST /razorpay-webhook` (lines 206–263 of `server.js`).  A missing
webhook secret makes `crypto.createHmac` throw before anything else happens.
Otherwise the hex HMAC-SHA-256 digest of the raw body is compared with the
signature header: on mismatch the handler answers 403 without parsing; on
match the body is parsed (`JSON.parse` throwing on malformed bodies, outside
any `try`), the event tag read (throwing when the parsed value is `null`),
non-reconciliation tags are acknowledged untouched, and reconciliation-worthy
tags extract `payload.account.entity.{id,status,kyc_status}` (throwing when
the chain hits `undefined`/`null`) and run the reconciliation `try` block. -/
def handleRazorpayWebhook (secret : Option String) (env : StoreEnv)
    (req : WebhookRequest) : WebhookResult :=
  match secret with
  | none => ⟨none, env.users, []⟩
  | some sec =>
    let digest := hmacHexS sec req.body
    if req.signature = some digest then
      match jsonParse req.body with
      | none => ⟨none, env.users, [WAction.parseBody]⟩
      | some ev =>
        match jsMember (some ev) ("event") with
        | Except.error _ => ⟨none, env.users, [WAction.parseBody]⟩
        | Except.ok t =>
          if recWorthy t then
            match entityField ev ("id"), entityField ev ("status"),
                  entityField ev ("kyc_status") with
            | Except.ok vId, Except.ok vStatus, Except.ok vKyc =>
              let res := runReconcile env vId vStatus vKyc
              ⟨some (200, "Webhook Received"), res.1, WAction.parseBody :: res.2⟩
            | _, _, _ => ⟨none, env.users, [WAction.parseBody]⟩
          else ⟨some (200, "Webhook Received"), env.users, [WAction.parseBody]⟩
    else ⟨some (403, "Invalid Signature"), env.users, []⟩

/-- The signature comparison `digest === suppliedSignature` as the webhook
handler performs it, for byte-level inputs. -/
def hmacVerify (msg : List Nat) (signature : String) (key : List Nat) : Bool :=
  decide (hmacHexB key msg = signature)

/-! ## The payment-verification handler -/

/-- Result of `POST /verify-payment`: HTTP status, the `message` field of the
JSON response, and whether a digest comparison was performed. -/
structure VPResult where
  status : Nat
  message : String
  compared : Bool

/-- `POST /verify-payment` (lines 340–356 of `server.js`).  JavaScript
truthiness: a field that is absent **or** the empty string fails the
`!orderId || !paymentId || !razorpaySignature` guard. -/
def verifyPayment (keySecret : String) (orderId paymentId razorpaySignature : Option String) :
    VPResult :=
  match orderId, paymentId, razorpaySignature with
  | some o, some p, some s =>
    if o = "" ∨ p = "" ∨ s = "" then ⟨400, "Missing fields for verification.", false⟩
    else
      let generatedSignature := hmacHexS keySecret (o ++ "|" ++ p)
      if generatedSignature ≠ s then ⟨400, "Invalid signature", true⟩
      else ⟨200, "Payment verified successfully", true⟩
  | _, _, _ => ⟨400, "Missing fields for verification.", false⟩

/-- Index of a hex character among the sixteen digits, used to compare
digests positionally. -/
def hexIdx (c : Char) : Fin 16 := ⟨hexCharList.indexOf c % 16, Nat.mod_lt _ (by norm_num)⟩

/-! ## Concrete fixtures

Stored records, store environments and webhook deliveries used to exercise the
theorems at concrete inputs.  Each request's signature header is the genuine
digest of its body (except where a tampered delivery is the point), so an
authenticated delivery is built exactly as the Provider would build it. -/

/-- A producer record awaiting KYC, linked to account `acc_1`. -/
def userC1 : UserRecord := ⟨"u1", some ("acc_1"), false, none, none⟩

/-- Store holding only `userC1`, with a healthy query and update path. -/
def envC1 : StoreEnv := ⟨[userC1], false, false⟩

/-- An `account.activated` event for `acc_1` with verified KYC. -/
def bodyC1 : String := "\x7b\"event\":\"account.activated\",\"payload\":\x7b\"account\":\x7b\"entity\":\x7b\"id\":\"acc_1\",\"status\":\"activated\",\"kyc_status\":\"verified\"\x7d\x7d\x7d\x7d"

/-- Authenticated delivery of `bodyC1`. -/
def reqC1 : WebhookRequest := ⟨bodyC1, some (hmacHexS ("whsec1") bodyC1)⟩

/-- The parse of `bodyC1`. -/
def evC1 : Json :=
  Json.obj [(("event"), Json.str ("account.activated")),
    (("payload"), Json.obj [(("account"), Json.obj [(("entity"), Json.obj
      [(("id"), Json.str ("acc_1")), (("status"), Json.str ("activated")),
       (("kyc_status"), Json.str ("verified"))])])])]

/-- A record whose state a tampered delivery must not touch. -/
def userC2 : UserRecord := ⟨"u2", some ("acc_2"), true, none, none⟩

/-- An empty store: no record links to any account. -/
def envC3 : StoreEnv := ⟨[], false, false⟩

/-- An `account.updated` event for `acc_3` with pending KYC. -/
def bodyC3 : String := "\x7b\"event\":\"account.updated\",\"payload\":\x7b\"account\":\x7b\"entity\":\x7b\"id\":\"acc_3\",\"status\":\"activated\",\"kyc_status\":\"pending\"\x7d\x7d\x7d\x7d"

/-- Authenticated delivery of `bodyC3`. -/
def reqC3 : WebhookRequest := ⟨bodyC3, some (hmacHexS ("whsec3") bodyC3)⟩

/-- The parse of `bodyC3`. -/
def evC3 : Json :=
  Json.obj [(("event"), Json.str ("account.updated")),
    (("payload"), Json.obj [(("account"), Json.obj [(("entity"), Json.obj
      [(("id"), Json.str ("acc_3")), (("status"), Json.str ("activated")),
       (("kyc_status"), Json.str ("pending"))])])])]

/-- A record with earlier mirrored statuses, to be overwritten last-write-wins. -/
def userC4 : UserRecord :=
  ⟨"u4", some ("acc_4"), true, some (Json.str ("created")), some (Json.str ("pending"))⟩

/-- Store holding only `userC4`. -/
def envC4 : StoreEnv := ⟨[userC4], false, false⟩

/-- An `account.updated` event for `acc_4` whose `kyc_status` is a provider
string outside the three recognised ones. -/
def bodyC4 : String := "\x7b\"event\":\"account.updated\",\"payload\":\x7b\"account\":\x7b\"entity\":\x7b\"id\":\"acc_4\",\"status\":\"activated\",\"kyc_status\":\"under_review\"\x7d\x7d\x7d\x7d"

/-- Authenticated delivery of `bodyC4`. -/
def reqC4 : WebhookRequest := ⟨bodyC4, some (hmacHexS ("whsec4") bodyC4)⟩

/-- The parse of `bodyC4`. -/
def evC4 : Json :=
  Json.obj [(("event"), Json.str ("account.updated")),
    (("payload"), Json.obj [(("account"), Json.obj [(("entity"), Json.obj
      [(("id"), Json.str ("acc_4")), (("status"), Json.str ("activated")),
       (("kyc_status"), Json.str ("under_review"))])])])]

/-- A record that must stay untouched by a non-reconciliation event. -/
def userC5 : UserRecord := ⟨"u5", some ("acc_5"), false, none, none⟩

/-- Store holding only `userC5`. -/
def envC5 : StoreEnv := ⟨[userC5], false, false⟩

/-- An event whose tag is neither `account.activated` nor `account.updated`. -/
def bodyC5 : String := "\x7b\"event\":\"payment.captured\"\x7d"

/-- Authenticated delivery of `bodyC5`. -/
def reqC5 : WebhookRequest := ⟨bodyC5, some (hmacHexS ("whsec5") bodyC5)⟩

/-- The parse of `bodyC5`. -/
def evC5 : Json := Json.obj [(("event"), Json.str ("payment.captured"))]

/-- A producer record awaiting KYC, linked to account `acc_7`. -/
def userC7 : UserRecord := ⟨"u7", some ("acc_7"), false, none, none⟩

/-- Store holding only `userC7`. -/
def envC7 : StoreEnv := ⟨[userC7], false, false⟩

/-- An `account.updated` event for `acc_7` with verified KYC, delivered twice. -/
def bodyC7 : String := "\x7b\"event\":\"account.updated\",\"payload\":\x7b\"account\":\x7b\"entity\":\x7b\"id\":\"acc_7\",\"status\":\"activated\",\"kyc_status\":\"verified\"\x7d\x7d\x7d\x7d"

/-- Authenticated delivery of `bodyC7`. -/
def reqC7 : WebhookRequest := ⟨bodyC7, some (hmacHexS ("whsec7") bodyC7)⟩

/-- The parse of `bodyC7`. -/
def evC7 : Json :=
  Json.obj [(("event"), Json.str ("account.updated")),
    (("payload"), Json.obj [(("account"), Json.obj [(("entity"), Json.obj
      [(("id"), Json.str ("acc_7")), (("status"), Json.str ("activated")),
       (("kyc_status"), Json.str ("verified"))])])])]

/-! ## Digest shape lemmas -/

/-- Every 32-bit word renders as exactly eight hex characters. -/
theorem toHex8_length (n : Nat) : (toHex8 n).length = 8 := rfl

/-- A rendered digest state is exactly 64 characters. -/
theorem hash8Hex_length (st : Hash8) : (hash8Hex st).length = 64 := by
  simp [hash8Hex, toHex8]

/-- Every HMAC-SHA-256 hex digest is exactly 64 characters. -/
theorem hmacHexList_length (key msg : List Nat) : (hmacHexList key msg).length = 64 :=
  hash8Hex_length _

/-- String form of the digest length fact. -/
theorem hmacHexS_length (k b : String) : (hmacHexS k b).length = 64 :=
  hmacHexList_length _ _

/-- `hexDigit` always lands in the sixteen hex characters. -/
theorem hexDigit_mem (n : Nat) : hexDigit n ∈ hexCharList := by
  have h : n % 16 < hexCharList.length := Nat.mod_lt _ (by simp [hexCharList])
  rw [hexDigit, List.getD_eq_getElem?_getD, List.getElem?_eq_getElem h]
  exact List.getElem_mem h

/-- Every character of a rendered word is a hex character. -/
theorem toHex8_mem {c : Char} {n : Nat} (hc : c ∈ toHex8 n) : c ∈ hexCharList := by
  simp [toHex8] at hc
  rcases hc with rfl | rfl | rfl | rfl | rfl | rfl | rfl | rfl <;> exact hexDigit_mem _

/-- Every character of a rendered digest state is a hex character. -/
theorem hash8Hex_mem {c : Char} {st : Hash8} (hc : c ∈ hash8Hex st) : c ∈ hexCharList := by
  simp only [hash8Hex, List.mem_append] at hc
  rcases hc with ((((((h | h) | h) | h) | h) | h) | h) | h <;> exact toHex8_mem h

/-- Every character of an HMAC hex digest is a hex character. -/
theorem hmacHexList_mem {c : Char} {key msg : List Nat} (hc : c ∈ hmacHexList key msg) :
    c ∈ hexCharList :=
  hash8Hex_mem hc

/-- `hexIdx` separates the sixteen hex characters. -/
theorem hexIdx_inj : ∀ c ∈ hexCharList, ∀ d ∈ hexCharList, hexIdx c = hexIdx d → c = d := by
  decide

/-- Pigeonhole: 33-byte messages outnumber 64-character hex digests, so under
any fixed secret two distinct messages share an HMAC-SHA-256 digest. -/
theorem hmacHexList_exists_collision (S : List Nat) :
    ∃ B B' : List Nat, B' ≠ B ∧ hmacHexList S B' = hmacHexList S B := by
  classical
  set bytesOf : (Fin 33 → Fin 256) → List Nat := fun v => List.ofFn (fun j => (v j).val) with hb
  set f : (Fin 33 → Fin 256) → (Fin 64 → Fin 16) :=
    fun v i => hexIdx ((hmacHexList S (bytesOf v)).getD i.val '0') with hfdef
  have hcard : Fintype.card (Fin 64 → Fin 16) < Fintype.card (Fin 33 → Fin 256) := by
    rw [Fintype.card_fun, Fintype.card_fun, Fintype.card_fin, Fintype.card_fin,
        Fintype.card_fin, Fintype.card_fin]
    norm_num
  obtain ⟨a, b, hne, hfeq⟩ := Fintype.exists_ne_map_eq_of_card_lt f hcard
  refine ⟨bytesOf a, bytesOf b, ?_, ?_⟩
  · intro h
    apply hne
    have h2 := List.ofFn_injective h
    funext j
    exact (Fin.val_injective (congrFun h2 j)).symm
  · have la : (hmacHexList S (bytesOf b)).length = 64 := hmacHexList_length _ _
    have lb : (hmacHexList S (bytesOf a)).length = 64 := hmacHexList_length _ _
    apply List.ext_getElem (by rw [la, lb])
    intro n h1 h2
    have hn : n < 64 := by rw [la] at h1; exact h1
    have ea : (hmacHexList S (bytesOf a)).getD n '0' = (hmacHexList S (bytesOf a))[n] := by
      rw [List.getD_eq_getElem?_getD, List.getElem?_eq_getElem h2]
      rfl
    have eb : (hmacHexList S (bytesOf b)).getD n '0' = (hmacHexList S (bytesOf b))[n] := by
      rw [List.getD_eq_getElem?_getD, List.getElem?_eq_getElem h1]
      rfl
    have ma : (hmacHexList S (bytesOf a))[n] ∈ hexCharList :=
      hmacHexList_mem (List.getElem_mem h2)
    have mb : (hmacHexList S (bytesOf b))[n] ∈ hexCharList :=
      hmacHexList_mem (List.getElem_mem h1)
    apply hexIdx_inj _ mb _ ma
    rw [← ea, ← eb]
    exact (congrFun hfeq ⟨n, hn⟩).symm

/-! ## Handler spine lemmas -/

/-- On a signature mismatch the webhook handler answers 403, touches nothing,
and attempts no operation. -/
theorem handleWebhook_badsig (sec : String) (env : StoreEnv) (req : WebhookRequest)
    (hsig : req.signature ≠ some (hmacHexS sec req.body)) :
    handleRazorpayWebhook (some sec) env req =
      ⟨some (403, "Invalid Signature"), env.users, []⟩ := by
  simp only [handleRazorpayWebhook]
  rw [if_neg hsig]

/-- After signature verification, a body `JSON.parse` rejects makes the handler
throw: no response, store untouched. -/
theorem handleWebhook_parse_failure (sec : String) (env : StoreEnv) (req : WebhookRequest)
    (hsig : req.signature = some (hmacHexS sec req.body))
    (hparse : jsonParse req.body = none) :
    handleRazorpayWebhook (some sec) env req = ⟨none, env.users, [WAction.parseBody]⟩ := by
  simp only [handleRazorpayWebhook, hsig, hparse, if_pos, eq_self_iff_true, if_true]

/-- An authenticated event whose tag is not reconciliation-worthy is
acknowledged with 200 and no store operation. -/
theorem handleWebhook_not_worthy (sec : String) (env : StoreEnv) (req : WebhookRequest)
    (ev : Json) (t : Option Json)
    (hsig : req.signature = some (hmacHexS sec req.body))
    (hparse : jsonParse req.body = some ev)
    (htag : jsMember (some ev) ("event") = Except.ok t)
    (hworthy : recWorthy t = false) :
    handleRazorpayWebhook (some sec) env req =
      ⟨some (200, "Webhook Received"), env.users, [WAction.parseBody]⟩ := by
  simp only [handleRazorpayWebhook, hsig, hparse, htag, hworthy, if_pos, eq_self_iff_true,
    if_true, Bool.false_eq_true, if_false]

/-- An authenticated reconciliation-worthy event with a well-formed entity
chain acknowledges with 200 and delegates the store work to `runReconcile`. -/
theorem handleWebhook_authed_worthy (sec : String) (env : StoreEnv) (req : WebhookRequest)
    (ev : Json) (t vId vStatus vKyc : Option Json)
    (hsig : req.signature = some (hmacHexS sec req.body))
    (hparse : jsonParse req.body = some ev)
    (htag : jsMember (some ev) ("event") = Except.ok t)
    (hworthy : recWorthy t = true)
    (hid : entityField ev ("id") = Except.ok vId)
    (hst : entityField ev ("status") = Except.ok vStatus)
    (hky : entityField ev ("kyc_status") = Except.ok vKyc) :
    handleRazorpayWebhook (some sec) env req =
      ⟨some (200, "Webhook Received"), (runReconcile env vId vStatus vKyc).1,
       WAction.parseBody :: (runReconcile env vId vStatus vKyc).2⟩ := by
  simp only [handleRazorpayWebhook, hsig, hparse, htag, hworthy, hid, hst, hky, if_pos,
    eq_self_iff_true, if_true]

/-- A healthy query that finds a match updates the first matching document. -/
theorem runReconcile_hit (env : StoreEnv) (idv vS vK : Json) (r : UserRecord)
    (rest : List UserRecord)
    (hqf : env.queryFails = false) (huf : env.updateFails = false)
    (hfil : env.users.filter (matchesAccount idv) = r :: rest) :
    runReconcile env (some idv) (some vS) (some vK) =
      (env.users.map (fun u =>
         if u.docId = r.docId then applyUpdate u (updateData (some vS) (some vK)) else u),
       [WAction.storeQuery ("linkedAccountId") idv,
        WAction.storeUpdate r.docId (updateData (some vS) (some vK))]) := by
  simp [runReconcile, hqf, huf, hfil]

/-- A lookup miss leaves the collection untouched. -/
theorem runReconcile_miss (env : StoreEnv) (idv : Json) (vS vK : Option Json)
    (hfil : env.users.filter (matchesAccount idv) = []) :
    (runReconcile env (some idv) vS vK).1 = env.users := by
  by_cases hq : env.queryFails <;> simp [runReconcile, hq, hfil]

/-- A failing update call leaves the collection untouched, whatever else holds. -/
theorem runReconcile_updateFails (env : StoreEnv) (vId vS vK : Option Json)
    (huf : env.updateFails = true) :
    (runReconcile env vId vS vK).1 = env.users := by
  rcases vId with _ | idv
  · rfl
  · by_cases hq : env.queryFails
    · simp [runReconcile, hq]
    · cases hfil : env.users.filter (matchesAccount idv) with
      | nil => simp [runReconcile, hq, hfil]
      | cons r rest =>
        cases hU : (vS.isNone || vK.isNone) with
        | true => simp [runReconcile, hq, hfil, hU]
        | false => simp [runReconcile, hq, hfil, hU, huf]

/-! ## Update algebra -/

/-- A reconciliation update keeps the document identity. -/
theorem applyUpdate_docId (r : UserRecord) (u : UpdateData) :
    (applyUpdate r u).docId = r.docId := rfl

/-- A reconciliation update never changes which account a record links to. -/
theorem matchesAccount_applyUpdate (v : Json) (r : UserRecord) (u : UpdateData) :
    matchesAccount v (applyUpdate r u) = matchesAccount v r := by
  cases v <;> rfl

/-- Overwriting a field twice with the same update is overwriting it once. -/
theorem keepOr_idem (n o : Option Json) : keepOr n (keepOr n o) = keepOr n o := by
  cases n <;> rfl

/-- Applying the same partial update twice equals applying it once. -/
theorem applyUpdate_idem (r : UserRecord) (u : UpdateData) :
    applyUpdate (applyUpdate r u) u = applyUpdate r u := by
  cases r
  simp [applyUpdate, keepOr_idem]
  cases hk : u.kycCompleted <;> simp [hk]

/-- The `kycCompleted` member of the update object, by case on the event's
KYC status string. -/
theorem updateData_kycCompleted_str (sJ : Option Json) (kStr : String) :
    (updateData sJ (some (Json.str kStr))).kycCompleted =
      (if kStr = "verified" then some true
       else if kStr = "pending" ∨ kStr = "rejected" then some false else none) := by
  simp only [updateData, jsEqStr]
  split_ifs with h1 h2 h3 h4 h5 <;> simp_all

/-- Filtering by account after a per-document update is updating the filtered
documents: the update preserves `linkedAccountId`. -/
theorem filter_matches_map_update (users : List UserRecord) (v : Json) (rid : String)
    (ud : UpdateData) :
    (users.map (fun u => if u.docId = rid then applyUpdate u ud else u)).filter
        (matchesAccount v) =
      (users.filter (matchesAccount v)).map
        (fun u => if u.docId = rid then applyUpdate u ud else u) := by
  induction users with
  | nil => rfl
  | cons x xs ih =>
    have hm : matchesAccount v (if x.docId = rid then applyUpdate x ud else x) =
        matchesAccount v x := by
      by_cases hc : x.docId = rid <;> simp [hc, matchesAccount_applyUpdate]
    simp only [List.map_cons, List.filter_cons, hm]
    cases hmx : matchesAccount v x
    · simpa using ih
    · simp [ih]

/-- Updating every matching document a second time with the same update is a
no-op on the collection. -/
theorem reconcile_map_idem (users : List UserRecord) (rid : String) (ud : UpdateData) :
    (users.map (fun u => if u.docId = rid then applyUpdate u ud else u)).map
      (fun u => if u.docId = rid then applyUpdate u ud else u) =
    users.map (fun u => if u.docId = rid then applyUpdate u ud else u) := by
  rw [List.map_map]
  apply List.map_congr_left
  intro u _
  by_cases hc : u.docId = rid
  · simp [Function.comp, hc, applyUpdate_docId, applyUpdate_idem]
  · simp [Function.comp, hc]

/-- The `/verify-payment` handler on three present fields, as one equation. -/
theorem verifyPayment_some (k o1 p1 s1 : String) :
    verifyPayment k (some o1) (some p1) (some s1) =
      (if o1 = "" ∨ p1 = "" ∨ s1 = "" then ⟨400, "Missing fields for verification.", false⟩
       else if hmacHexS k (o1 ++ "|" ++ p1) ≠ s1 then ⟨400, "Invalid signature", true⟩
       else ⟨200, "Payment verified successfully", true⟩) := rfl

/-- Any absent or empty field short-circuits `/verify-payment` into the
missing-fields rejection, before any digest comparison. -/
theorem verifyPayment_missing (k : String) (o p s : Option String)
    (h : o = none ∨ o = some ("") ∨ p = none ∨ p = some ("") ∨ s = none ∨ s = some ("")) :
    verifyPayment k o p s = ⟨400, "Missing fields for verification.", false⟩ := by
  rcases o with _ | o1
  · rfl
  rcases p with _ | p1
  · rfl
  rcases s with _ | s1
  · rfl
  have h2 : o1 = "" ∨ p1 = "" ∨ s1 = "" := by
    rcases h with h | h | h | h | h | h <;> simp_all
  show (if o1 = "" ∨ p1 = "" ∨ s1 = "" then _ else _) = _
  rw [if_pos h2]

/-! ## The claims -/

/-- Claim C1: for every authenticated reconciliation-worthy webhook event applied
to a matched user record, the reconciler sets `kycCompleted` to `true` if the
event's `kyc_status` equals `"verified"`, to `false` if it equals `"pending"` or
`"rejected"`, and leaves `kycCompleted` at its prior value for any other
`kyc_status` string; the store ends up holding exactly that updated record. -/
theorem c1_kycCompleted_cases (sec : String) (env : StoreEnv) (req : WebhookRequest)
    (ev : Json) (t : Option Json) (accId sJ : Json) (kStr : String)
    (r : UserRecord) (rest : List UserRecord)
    (hsig : req.signature = some (hmacHexS sec req.body))
    (hparse : jsonParse req.body = some ev)
    (htag : jsMember (some ev) ("event") = Except.ok t)
    (hworthy : recWorthy t = true)
    (hid : entityField ev ("id") = Except.ok (some accId))
    (hst : entityField ev ("status") = Except.ok (some sJ))
    (hky : entityField ev ("kyc_status") = Except.ok (some (Json.str kStr)))
    (hqf : env.queryFails = false) (huf : env.updateFails = false)
    (hfil : env.users.filter (matchesAccount accId) = r :: rest) :
    (handleRazorpayWebhook (some sec) env req).users =
      env.users.map (fun u =>
        if u.docId = r.docId then
          applyUpdate u (updateData (some sJ) (some (Json.str kStr))) else u)
    ∧ (applyUpdate r (updateData (some sJ) (some (Json.str kStr)))).kycCompleted =
        (if kStr = "verified" then true
         else if kStr = "pending" ∨ kStr = "rejected" then false
         else r.kycCompleted) := by
  constructor
  · rw [handleWebhook_authed_worthy sec env req ev t (some accId) (some sJ)
        (some (Json.str kStr)) hsig hparse htag hworthy hid hst hky]
    rw [runReconcile_hit env accId sJ (Json.str kStr) r rest hqf huf hfil]
  · show (updateData (some sJ) (some (Json.str kStr))).kycCompleted.getD r.kycCompleted = _
    rw [updateData_kycCompleted_str]
    split_ifs <;> rfl

set_option maxRecDepth 16384 in
/-- Witness for C1: the verified `acc_1` event lands in the store with
`kycCompleted = true`. -/
theorem c1_witness :
    (handleRazorpayWebhook (some ("whsec1")) envC1 reqC1).users =
      envC1.users.map (fun u =>
        if u.docId = userC1.docId then
          applyUpdate u (updateData (some (Json.str ("activated")))
            (some (Json.str ("verified")))) else u)
    ∧ (applyUpdate userC1 (updateData (some (Json.str ("activated")))
        (some (Json.str ("verified"))))).kycCompleted =
        (if ("verified" : String) = "verified" then true
         else if ("verified" : String) = "pending" ∨ ("verified" : String) = "rejected" then false
         else userC1.kycCompleted) :=
  c1_kycCompleted_cases ("whsec1") envC1 reqC1 evC1 (some (Json.str ("account.activated")))
    (Json.str ("acc_1")) (Json.str ("activated")) ("verified") userC1 []
    rfl rfl rfl rfl rfl rfl rfl rfl rfl rfl

/-- Claim C2: a webhook whose supplied signature header differs from the hex
HMAC-SHA-256 digest of the raw body under the configured secret is answered with
the 403 rejection, the body is never parsed, no store operation is attempted,
and every Document Store record is left unchanged. -/
theorem c2_mismatch_rejected (sec : String) (env : StoreEnv) (req : WebhookRequest)
    (hsig : req.signature ≠ some (hmacHexS sec req.body)) :
    handleRazorpayWebhook (some sec) env req =
      ⟨some (403, "Invalid Signature"), env.users, []⟩ :=
  handleWebhook_badsig sec env req hsig

/-- Witness for C2: a tampered signature (here an 8-character value, which can
never equal a 64-character digest) is rejected with the record untouched. -/
theorem c2_witness :
    handleRazorpayWebhook (some ("whsec2")) (⟨[userC2], false, false⟩ : StoreEnv)
      (⟨"tampered body", some ("deadbeef")⟩ : WebhookRequest) =
      ⟨some (403, "Invalid Signature"), [userC2], []⟩ :=
  c2_mismatch_rejected ("whsec2") (⟨[userC2], false, false⟩ : StoreEnv)
    (⟨"tampered body", some ("deadbeef")⟩ : WebhookRequest)
    (by
      intro h
      simp only [Option.some.injEq] at h
      have h2 := congrArg String.length h
      rw [hmacHexS_length] at h2
      exact absurd h2 (by decide))

/-- Claim C3: an authenticated reconciliation-worthy event is acknowledged with
the 200 success response unconditionally — in particular both when the lookup
finds zero matching records (store also unchanged) and when the store update
call fails (store also unchanged); neither failure reaches the Provider. -/
theorem c3_ack_despite_store_failures (sec : String) (env : StoreEnv) (req : WebhookRequest)
    (ev : Json) (t vId vStatus vKyc : Option Json)
    (hsig : req.signature = some (hmacHexS sec req.body))
    (hparse : jsonParse req.body = some ev)
    (htag : jsMember (some ev) ("event") = Except.ok t)
    (hworthy : recWorthy t = true)
    (hid : entityField ev ("id") = Except.ok vId)
    (hst : entityField ev ("status") = Except.ok vStatus)
    (hky : entityField ev ("kyc_status") = Except.ok vKyc) :
    (handleRazorpayWebhook (some sec) env req).response = some (200, "Webhook Received")
    ∧ (∀ idv : Json, vId = some idv → env.users.filter (matchesAccount idv) = [] →
        (handleRazorpayWebhook (some sec) env req).users = env.users)
    ∧ (env.updateFails = true →
        (handleRazorpayWebhook (some sec) env req).users = env.users) := by
  rw [handleWebhook_authed_worthy sec env req ev t vId vStatus vKyc
      hsig hparse htag hworthy hid hst hky]
  refine ⟨rfl, ?_, ?_⟩
  · intro idv hv hfil
    subst hv
    exact runReconcile_miss env idv vStatus vKyc hfil
  · intro huf
    exact runReconcile_updateFails env vId vStatus vKyc huf

set_option maxRecDepth 16384 in
/-- Witness for C3: an authenticated event whose account matches no record is
acknowledged with 200 and mutates nothing. -/
theorem c3_witness :
    (handleRazorpayWebhook (some ("whsec3")) envC3 reqC3).response =
      some (200, "Webhook Received")
    ∧ (handleRazorpayWebhook (some ("whsec3")) envC3 reqC3).users = envC3.users :=
  ⟨(c3_ack_despite_store_failures ("whsec3") envC3 reqC3 evC3
      (some (Json.str ("account.updated"))) (some (Json.str ("acc_3")))
      (some (Json.str ("activated"))) (some (Json.str ("pending")))
      rfl rfl rfl rfl rfl rfl rfl).1,
   (c3_ack_despite_store_failures ("whsec3") envC3 reqC3 evC3
      (some (Json.str ("account.updated"))) (some (Json.str ("acc_3")))
      (some (Json.str ("activated"))) (some (Json.str ("pending")))
      rfl rfl rfl rfl rfl rfl rfl).2.1 (Json.str ("acc_3")) rfl rfl⟩

/-- Claim C4: for every authenticated `account.activated`/`account.updated`
event matching a stored record, the reconciler unconditionally overwrites both
`razorpayAccountStatus` and `razorpayKycStatus` of that record with the event's
`status` and `kyc_status` values, whatever the prior stored values were. -/
theorem c4_last_write_wins (sec : String) (env : StoreEnv) (req : WebhookRequest)
    (ev : Json) (t : Option Json) (accId sJ kJ : Json)
    (r : UserRecord) (rest : List UserRecord)
    (hsig : req.signature = some (hmacHexS sec req.body))
    (hparse : jsonParse req.body = some ev)
    (htag : jsMember (some ev) ("event") = Except.ok t)
    (hworthy : recWorthy t = true)
    (hid : entityField ev ("id") = Except.ok (some accId))
    (hst : entityField ev ("status") = Except.ok (some sJ))
    (hky : entityField ev ("kyc_status") = Except.ok (some kJ))
    (hqf : env.queryFails = false) (huf : env.updateFails = false)
    (hfil : env.users.filter (matchesAccount accId) = r :: rest) :
    (handleRazorpayWebhook (some sec) env req).users =
      env.users.map (fun u =>
        if u.docId = r.docId then applyUpdate u (updateData (some sJ) (some kJ)) else u)
    ∧ (applyUpdate r (updateData (some sJ) (some kJ))).razorpayAccountStatus = some sJ
    ∧ (applyUpdate r (updateData (some sJ) (some kJ))).razorpayKycStatus = some kJ := by
  refine ⟨?_, rfl, rfl⟩
  rw [handleWebhook_authed_worthy sec env req ev t (some accId) (some sJ) (some kJ)
      hsig hparse htag hworthy hid hst hky]
  rw [runReconcile_hit env accId sJ kJ r rest hqf huf hfil]

set_option maxRecDepth 16384 in
/-- Witness for C4: prior statuses `"created"` and `"pending"` are overwritten
with the event's `"activated"` and `"under_review"`. -/
theorem c4_witness :
    (handleRazorpayWebhook (some ("whsec4")) envC4 reqC4).users =
      envC4.users.map (fun u =>
        if u.docId = userC4.docId then
          applyUpdate u (updateData (some (Json.str ("activated")))
            (some (Json.str ("under_review")))) else u)
    ∧ (applyUpdate userC4 (updateData (some (Json.str ("activated")))
        (some (Json.str ("under_review"))))).razorpayAccountStatus =
          some (Json.str ("activated"))
    ∧ (applyUpdate userC4 (updateData (some (Json.str ("activated")))
        (some (Json.str ("under_review"))))).razorpayKycStatus =
          some (Json.str ("under_review")) :=
  c4_last_write_wins ("whsec4") envC4 reqC4 evC4 (some (Json.str ("account.updated")))
    (Json.str ("acc_4")) (Json.str ("activated")) (Json.str ("under_review")) userC4 []
    rfl rfl rfl rfl rfl rfl rfl rfl rfl rfl

/-- Claim C5: an authenticated webhook whose event tag is neither
`account.activated` nor `account.updated` performs zero Document Store reads or
writes — its whole trace is the body parse — and is still acknowledged with the
200 success response, the store unchanged. -/
theorem c5_unknown_tag_no_store_ops (sec : String) (env : StoreEnv) (req : WebhookRequest)
    (ev : Json) (t : Option Json)
    (hsig : req.signature = some (hmacHexS sec req.body))
    (hparse : jsonParse req.body = some ev)
    (htag : jsMember (some ev) ("event") = Except.ok t)
    (hworthy : recWorthy t = false) :
    handleRazorpayWebhook (some sec) env req =
      ⟨some (200, "Webhook Received"), env.users, [WAction.parseBody]⟩
    ∧ ((handleRazorpayWebhook (some sec) env req).trace.all fun a => !a.isStoreOp) = true := by
  have h := handleWebhook_not_worthy sec env req ev t hsig hparse htag hworthy
  refine ⟨h, ?_⟩
  rw [h]
  rfl

set_option maxRecDepth 16384 in
/-- Witness for C5: an authenticated `payment.captured` delivery is acknowledged
and touches nothing. -/
theorem c5_witness :
    handleRazorpayWebhook (some ("whsec5")) envC5 reqC5 =
      ⟨some (200, "Webhook Received"), envC5.users, [WAction.parseBody]⟩ :=
  (c5_unknown_tag_no_store_ops ("whsec5") envC5 reqC5 evC5
    (some (Json.str ("payment.captured"))) rfl rfl rfl rfl).1

/-- Counterexample for C6 as frozen: an authenticated delivery whose body
`"notjson"` does not parse is NOT acknowledged with a success response — the
uncaught `JSON.parse` exception leaves the request without any response at
all (`JSON.parse` at line 215 of `server.js` runs outside the `try`). -/
theorem c6_counterexample :
    jsonParse ("notjson") = none
    ∧ (handleRazorpayWebhook (some ("whsec")) (⟨[], false, false⟩ : StoreEnv)
        (⟨"notjson", some (hmacHexS ("whsec") ("notjson"))⟩ : WebhookRequest)).response = none
    ∧ (handleRazorpayWebhook (some ("whsec")) (⟨[], false, false⟩ : StoreEnv)
        (⟨"notjson", some (hmacHexS ("whsec") ("notjson"))⟩ : WebhookRequest)).response ≠
          some (200, "Webhook Received") := by
  have h := handleWebhook_parse_failure ("whsec") (⟨[], false, false⟩ : StoreEnv)
    (⟨"notjson", some (hmacHexS ("whsec") ("notjson"))⟩ : WebhookRequest) rfl rfl
  refine ⟨rfl, ?_, ?_⟩
  · rw [h]
  · rw [h]
    simp

/-- Claim C6 as amended: a webhook that passes signature verification but whose
body does not parse makes the handler throw an unhandled exception — no
response is produced (in particular no success acknowledgement) and no store
operation occurs, rather than the failure being logged and acknowledged. -/
theorem c6_parse_failure_no_response (sec : String) (env : StoreEnv) (req : WebhookRequest)
    (hsig : req.signature = some (hmacHexS sec req.body))
    (hparse : jsonParse req.body = none) :
    handleRazorpayWebhook (some sec) env req = ⟨none, env.users, [WAction.parseBody]⟩
    ∧ (handleRazorpayWebhook (some sec) env req).response ≠ some (200, "Webhook Received") := by
  have h := handleWebhook_parse_failure sec env req hsig hparse
  refine ⟨h, ?_⟩
  rw [h]
  simp

/-- Witness for C6 (amended): an authenticated truncated body produces no
response and no store change. -/
theorem c6_witness :
    handleRazorpayWebhook (some ("whsec6")) (⟨[], false, false⟩ : StoreEnv)
      (⟨"\x7bbad", some (hmacHexS ("whsec6") ("\x7bbad"))⟩ : WebhookRequest) =
      ⟨none, [], [WAction.parseBody]⟩ :=
  (c6_parse_failure_no_response ("whsec6") (⟨[], false, false⟩ : StoreEnv)
    (⟨"\x7bbad", some (hmacHexS ("whsec6") ("\x7bbad"))⟩ : WebhookRequest) rfl rfl).1

/-- Claim C7: applying the same authenticated `"verified"` KYC event twice in
succession yields the same final store state as applying it once. -/
theorem c7_idempotent (sec : String) (env : StoreEnv) (req : WebhookRequest)
    (ev : Json) (t : Option Json) (accId sJ : Json)
    (r : UserRecord) (rest : List UserRecord)
    (hsig : req.signature = some (hmacHexS sec req.body))
    (hparse : jsonParse req.body = some ev)
    (htag : jsMember (some ev) ("event") = Except.ok t)
    (hworthy : recWorthy t = true)
    (hid : entityField ev ("id") = Except.ok (some accId))
    (hst : entityField ev ("status") = Except.ok (some sJ))
    (hky : entityField ev ("kyc_status") = Except.ok (some (Json.str ("verified"))))
    (hqf : env.queryFails = false) (huf : env.updateFails = false)
    (hfil : env.users.filter (matchesAccount accId) = r :: rest) :
    (handleRazorpayWebhook (some sec)
        ⟨(handleRazorpayWebhook (some sec) env req).users, env.queryFails, env.updateFails⟩
        req).users =
      (handleRazorpayWebhook (some sec) env req).users := by
  have h1 : (handleRazorpayWebhook (some sec) env req).users =
      env.users.map (fun u =>
        if u.docId = r.docId then
          applyUpdate u (updateData (some sJ) (some (Json.str ("verified")))) else u) := by
    rw [handleWebhook_authed_worthy sec env req ev t (some accId) (some sJ)
        (some (Json.str ("verified"))) hsig hparse htag hworthy hid hst hky]
    rw [runReconcile_hit env accId sJ (Json.str ("verified")) r rest hqf huf hfil]
  rw [h1]
  have hfil2 : ((⟨env.users.map (fun u =>
        if u.docId = r.docId then
          applyUpdate u (updateData (some sJ) (some (Json.str ("verified")))) else u),
        env.queryFails, env.updateFails⟩ : StoreEnv).users.filter (matchesAccount accId)) =
      (applyUpdate r (updateData (some sJ) (some (Json.str ("verified"))))) ::
        (rest.map (fun u =>
          if u.docId = r.docId then
            applyUpdate u (updateData (some sJ) (some (Json.str ("verified")))) else u)) := by
    show ((env.users.map (fun u =>
        if u.docId = r.docId then
          applyUpdate u (updateData (some sJ) (some (Json.str ("verified")))) else u)).filter
        (matchesAccount accId)) = _
    rw [filter_matches_map_update, hfil, List.map_cons, if_pos rfl]
  rw [handleWebhook_authed_worthy sec
      (⟨env.users.map (fun u =>
        if u.docId = r.docId then
          applyUpdate u (updateData (some sJ) (some (Json.str ("verified")))) else u),
        env.queryFails, env.updateFails⟩ : StoreEnv) req ev t (some accId) (some sJ)
      (some (Json.str ("verified"))) hsig hparse htag hworthy hid hst hky]
  rw [runReconcile_hit
      (⟨env.users.map (fun u =>
        if u.docId = r.docId then
          applyUpdate u (updateData (some sJ) (some (Json.str ("verified")))) else u),
        env.queryFails, env.updateFails⟩ : StoreEnv) accId sJ (Json.str ("verified"))
      (applyUpdate r (updateData (some sJ) (some (Json.str ("verified")))))
      (rest.map (fun u =>
        if u.docId = r.docId then
          applyUpdate u (updateData (some sJ) (some (Json.str ("verified")))) else u))
      hqf huf hfil2]
  simp only [applyUpdate_docId]
  exact reconcile_map_idem env.users r.docId (updateData (some sJ) (some (Json.str ("verified"))))

set_option maxRecDepth 16384 in
/-- Witness for C7: delivering the verified `acc_7` event a second time on top
of the store the first delivery produced changes nothing further. -/
theorem c7_witness :
    (handleRazorpayWebhook (some ("whsec7"))
        ⟨(handleRazorpayWebhook (some ("whsec7")) envC7 reqC7).users,
         envC7.queryFails, envC7.updateFails⟩ reqC7).users =
      (handleRazorpayWebhook (some ("whsec7")) envC7 reqC7).users :=
  c7_idempotent ("whsec7") envC7 reqC7 evC7 (some (Json.str ("account.updated")))
    (Json.str ("acc_7")) (Json.str ("activated")) userC7 []
    rfl rfl rfl rfl rfl rfl rfl rfl rfl rfl

/-- Counterexample for C8 as frozen: it is NOT the case that every altered byte
sequence fails verification against the original's digest — by pigeonhole two
distinct 33-byte messages share a 64-character digest under the same secret, so
verification accepts an altered message. -/
theorem c8_counterexample :
    ¬ (∀ (S B Bp : List Nat), Bp ≠ B → hmacVerify Bp (hmacHexB S B) S = false) := by
  intro h
  obtain ⟨B, Bp, hne, heq⟩ := hmacHexList_exists_collision []
  have hv := h [] B Bp hne
  have heqS : hmacHexB [] Bp = hmacHexB [] B := congrArg String.mk heq
  rw [hmacVerify, heqS] at hv
  simp at hv

/-- Claim C8 as amended: verifying a byte sequence against its own HMAC under
the same secret always succeeds, and verifying an altered sequence against the
original's HMAC fails exactly when the two digests differ (which, collisions
existing, is not all altered sequences). -/
theorem c8_verify_matches_iff (S B Bp : List Nat) :
    hmacVerify B (hmacHexB S B) S = true
    ∧ (hmacVerify Bp (hmacHexB S B) S = false ↔ hmacHexB S Bp ≠ hmacHexB S B) := by
  constructor
  · simp [hmacVerify]
  · simp [hmacVerify]

/-- Claim C9: with the webhook shared secret missing, `crypto.createHmac`
throws before anything else happens, so the handler fails closed on every
inbound request: no request is processed with verification skipped, no store
operation is attempted, no record changes, and no success acknowledgement is
produced. -/
theorem c9_missing_secret_fail_closed (env : StoreEnv) (req : WebhookRequest) :
    handleRazorpayWebhook none env req = ⟨none, env.users, []⟩
    ∧ (handleRazorpayWebhook none env req).response ≠ some (200, "Webhook Received") := by
  refine ⟨rfl, ?_⟩
  simp [handleRazorpayWebhook]

/-- Counterexample for C10 as frozen: a request carrying all three fields with
an empty `orderId` is rejected with 400 by the JavaScript falsiness guard even
though the supplied signature equals the digest of `orderId + "|" + paymentId`,
so "success iff digest matches" fails as stated. -/
theorem c10_counterexample :
    hmacHexS ("ks") ("" ++ "|" ++ "p1") = hmacHexS ("ks") ("" ++ "|" ++ "p1")
    ∧ (verifyPayment ("ks") (some ("")) (some ("p1"))
        (some (hmacHexS ("ks") ("" ++ "|" ++ "p1")))).status ≠ 200 := by
  refine ⟨rfl, ?_⟩
  rw [verifyPayment_missing ("ks") _ _ _ (Or.inr (Or.inl rfl))]
  norm_num

/-- Claim C10 as amended: `/verify-payment` answers success exactly when all
three fields are present AND non-empty and the hex HMAC-SHA-256 digest of
`orderId + "|" + paymentId` under the configured key secret equals the supplied
signature; a missing or empty field yields the 400 missing-fields failure with
no digest comparison performed. -/
theorem c10_verify_payment_iff (k : String) (o p s : Option String) :
    ((verifyPayment k o p s).status = 200 ↔
      ∃ o1 p1 s1 : String, o = some o1 ∧ p = some p1 ∧ s = some s1 ∧
        ¬o1 = "" ∧ ¬p1 = "" ∧ ¬s1 = "" ∧ hmacHexS k (o1 ++ "|" ++ p1) = s1)
    ∧ ((o = none ∨ o = some ("") ∨ p = none ∨ p = some ("") ∨ s = none ∨ s = some ("")) →
        verifyPayment k o p s = ⟨400, "Missing fields for verification.", false⟩) := by
  refine ⟨⟨?_, ?_⟩, verifyPayment_missing k o p s⟩
  · intro h200
    rcases o with _ | o1
    · exact absurd h200 (by norm_num [verifyPayment])
    rcases p with _ | p1
    · exact absurd h200 (by norm_num [verifyPayment])
    rcases s with _ | s1
    · exact absurd h200 (by norm_num [verifyPayment])
    rw [verifyPayment_some] at h200
    by_cases he : o1 = "" ∨ p1 = "" ∨ s1 = ""
    · rw [if_pos he] at h200
      norm_num at h200
    · push_neg at he
      rw [if_neg (by tauto)] at h200
      by_cases hd : hmacHexS k (o1 ++ "|" ++ p1) = s1
      · exact ⟨o1, p1, s1, rfl, rfl, rfl, he.1, he.2.1, he.2.2, hd⟩
      · rw [if_pos hd] at h200
        norm_num at h200
  · rintro ⟨o1, p1, s1, rfl, rfl, rfl, ho, hp, hs, hd⟩
    rw [verifyPayment_some, if_neg (by tauto), if_neg (not_not.mpr hd)]

/-- Witness for C10 (amended): non-empty fields with the genuine digest verify
with status 200. -/
theorem c10_witness :
    (verifyPayment ("ks") (some ("o1")) (some ("p1"))
        (some (hmacHexS ("ks") ("o1" ++ "|" ++ "p1")))).status = 200 :=
  (c10_verify_payment_iff ("ks") (some ("o1")) (some ("p1"))
      (some (hmacHexS ("ks") ("o1" ++ "|" ++ "p1")))).1.mpr
    ⟨"o1", "p1", hmacHexS ("ks") ("o1" ++ "|" ++ "p1"), rfl, rfl, rfl,
      by decide, by decide,
      (by
        intro h
        have h2 := congrArg String.length h
        rw [hmacHexS_length] at h2
        simp at h2),
      rfl⟩
